import Mathlib

/-!
Shallow embedding of the TDengine incremental-bitmap backup plugin: the
bitmap engine (block-state machine, dual indices, range queries), the
event interceptor (worker loop and lifecycle), and the backup coordinator
(cursors, batches, size estimation, retry policy), translated from the C
sources.  Compressed bitmaps (the CRoaring adapter) are modelled as
ascending duplicate-free lists of block ids; machine integers are modelled
as Nat and Int (the counters and ids involved stay far below the 64-bit
range in every statement below).
-/

/-- Block states, in the order of the C enum (CLEAN = 0, DIRTY = 1, NEW = 2,
DELETED = 3). -/
inductive EBlockState where
  | CLEAN
  | DIRTY
  | NEW
  | DELETED
deriving DecidableEq

/-- The STATE_TRANSITION_MATRIX table of bitmap_engine.c: rows are the current
state, columns the target state, transcribed entry by entry. -/
def STATE_TRANSITION_MATRIX (current_state target_state : EBlockState) : Bool :=
  match current_state, target_state with
  | .CLEAN, .CLEAN => false
  | .CLEAN, .DIRTY => true
  | .CLEAN, .NEW => true
  | .CLEAN, .DELETED => true
  | .DIRTY, .CLEAN => true
  | .DIRTY, .DIRTY => false
  | .DIRTY, .NEW => false
  | .DIRTY, .DELETED => true
  | .NEW, .CLEAN => false
  | .NEW, .DIRTY => true
  | .NEW, .NEW => false
  | .NEW, .DELETED => true
  | .DELETED, _ => false

/-- The allowed-transition table exactly as the specification writes it
(section 3): rows from, columns to, a dash on the diagonal meaning not
allowed.  Kept separate from STATE_TRANSITION_MATRIX so the two can be
compared. -/
def spec_transition_matrix (from_state to_state : EBlockState) : Bool :=
  match from_state, to_state with
  | .CLEAN, .CLEAN => false
  | .CLEAN, .DIRTY => true
  | .CLEAN, .NEW => true
  | .CLEAN, .DELETED => true
  | .DIRTY, .CLEAN => true
  | .DIRTY, .DIRTY => false
  | .DIRTY, .NEW => false
  | .DIRTY, .DELETED => true
  | .NEW, .CLEAN => false
  | .NEW, .DIRTY => true
  | .NEW, .NEW => false
  | .NEW, .DELETED => true
  | .DELETED, _ => false

/-- bitmap_engine_validate_state_transition: returns success exactly when the
matrix entry is 1 (the out-of-range enum check of the C code is
unrepresentable here, both arguments being well-typed states). -/
def bitmap_engine_validate_state_transition (current_state target_state : EBlockState) : Bool :=
  STATE_TRANSITION_MATRIX current_state target_state

/-- Outcome of a mark or clear call: 0, ERR_INVALID_STATE_TRANS or
ERR_BLOCK_NOT_FOUND in the C sources. -/
inductive MarkResult where
  | success
  | invalidStateTrans
  | blockNotFound
deriving DecidableEq

/-- SBlockMetadata from bitmap_engine.h: id, WAL offset, timestamp and state. -/
structure SBlockMetadata where
  block_id : Nat
  wal_offset : Nat
  timestamp : Int
  state : EBlockState
deriving DecidableEq

/-- roaring64_bitmap_add on the sorted duplicate-free list model: insert the
value at its place, keeping the list ascending, never duplicating. -/
def bitmap_add : List Nat → Nat → List Nat
  | [], v => [v]
  | x :: xs, v =>
    if v < x then v :: x :: xs
    else if v = x then x :: xs
    else x :: bitmap_add xs v

/-- roaring64_bitmap_remove: drop the value from the set. -/
def bitmap_remove (l : List Nat) (v : Nat) : List Nat :=
  l.filter (fun x => ¬ x = v)

/-- roaring64_bitmap_get_cardinality. -/
def bitmap_cardinality (l : List Nat) : Nat :=
  l.length

/-- roaring64_bitmap_or_inplace at the set level: add every element of the
first list into the second. -/
def bitmap_union : List Nat → List Nat → List Nat
  | [], l2 => l2
  | x :: xs, l2 => bitmap_add (bitmap_union xs l2) x

/-- roaring64_bitmap_and_inplace at the set level: keep the elements of the
first list that the second contains. -/
def bitmap_inter (l1 l2 : List Nat) : List Nat :=
  l1.filter (fun v => v ∈ l2)

/-- tdengine_roaring_to_array: the returned count is the minimum of the
cardinality and max_count, but whenever that count is positive the call
writes the FULL ascending array of the bitmap into the output buffer
(roaring64_bitmap_to_uint64_array takes no bound), so the written list is
the whole set, not its first count elements. -/
def tdengine_roaring_to_array (l : List Nat) (max_count : Nat) : List Nat × Nat :=
  let cardinality := bitmap_cardinality l
  let count := min cardinality max_count
  if 0 < count then (l, count) else ([], count)

/-- Modelled from the spec: skiplist.c is not under src/, only its callers
are.  Section 4.B describes it as an ordered mapping from an integer key to
a bitmap; skiplist_add is the find-or-create-then-add pattern of
add_time_index and add_wal_index in bitmap_engine.c. -/
def skiplist_add : List (Int × List Nat) → Int → Nat → List (Int × List Nat)
  | [], key, v => [(key, bitmap_add [] v)]
  | (k, bm) :: rest, key, v =>
    if key < k then (key, bitmap_add [] v) :: (k, bm) :: rest
    else if key = k then (k, bitmap_add bm v) :: rest
    else (k, bm) :: skiplist_add rest key v

/-- Modelled from the spec: skiplist_range_query iterates over every key of
the ordered index inside the closed range, and the range callback of
get_dirty_blocks_by_time and get_dirty_blocks_by_wal folds the union of
(dirty bitmap intersected with the bitmap at each key) into the result. -/
def skiplist_range_union_dirty (dirty : List Nat) (idx : List (Int × List Nat))
    (lo hi : Int) : List Nat :=
  idx.foldl (fun acc kv =>
    if lo ≤ kv.1 ∧ kv.1 ≤ hi then bitmap_union (bitmap_inter dirty kv.2) acc else acc) []

/-- SBitmapEngine state: the three bitmaps, the metadata hash map (modelled as
a lookup function), the two ordered indices and the counters. -/
structure SBitmapEngine where
  dirty_blocks : List Nat
  new_blocks : List Nat
  deleted_blocks : List Nat
  metadata_map : Nat → Option SBlockMetadata
  metadata_count : Nat
  time_index : List (Int × List Nat)
  wal_index : List (Int × List Nat)
  total_blocks : Nat
  dirty_count : Nat
  new_count : Nat
  deleted_count : Nat

/-- bitmap_engine_init: empty bitmaps, empty metadata map, empty indices,
all counters zero. -/
def bitmap_engine_init : SBitmapEngine where
  dirty_blocks := []
  new_blocks := []
  deleted_blocks := []
  metadata_map := fun _ => none
  metadata_count := 0
  time_index := []
  wal_index := []
  total_blocks := 0
  dirty_count := 0
  new_count := 0
  deleted_count := 0

/-- find_block_metadata: hash-map lookup. -/
def find_block_metadata (e : SBitmapEngine) (block_id : Nat) : Option SBlockMetadata :=
  e.metadata_map block_id

/-- The current state used by the mark functions: the metadata state when a
record exists, BLOCK_STATE_CLEAN otherwise. -/
def current_block_state (e : SBitmapEngine) (block_id : Nat) : EBlockState :=
  match find_block_metadata e block_id with
  | some md => md.state
  | none => .CLEAN

/-- insert_block_metadata: overwrite an existing record in place, otherwise
insert a fresh node and bump metadata_count. -/
def insert_block_metadata (e : SBitmapEngine) (md : SBlockMetadata) : SBitmapEngine :=
  { e with
    metadata_map := fun k => if k = md.block_id then some md else e.metadata_map k
    metadata_count :=
      if (e.metadata_map md.block_id).isSome then e.metadata_count else e.metadata_count + 1 }

/-- remove_block_metadata: drop the record and decrement metadata_count when
it exists. -/
def remove_block_metadata (e : SBitmapEngine) (block_id : Nat) : SBitmapEngine :=
  if (e.metadata_map block_id).isSome then
    { e with
      metadata_map := fun k => if k = block_id then none else e.metadata_map k
      metadata_count := e.metadata_count - 1 }
  else e

/-- add_time_index. -/
def add_time_index (e : SBitmapEngine) (timestamp : Int) (block_id : Nat) : SBitmapEngine :=
  { e with time_index := skiplist_add e.time_index timestamp block_id }

/-- add_wal_index (the uint64 offset is passed as the int64 skiplist key). -/
def add_wal_index (e : SBitmapEngine) (wal_offset : Nat) (block_id : Nat) : SBitmapEngine :=
  { e with wal_index := skiplist_add e.wal_index (wal_offset : Int) block_id }

/-- bitmap_engine_mark_dirty: validate the transition from the current state
to DIRTY, then write the metadata, add the id to the dirty bitmap, post the
(timestamp, wal) keys into the two indices and bump dirty_count and
total_blocks.  On a forbidden transition nothing is touched. -/
def bitmap_engine_mark_dirty (e : SBitmapEngine) (block_id wal_offset : Nat)
    (timestamp : Int) : MarkResult × SBitmapEngine :=
  if bitmap_engine_validate_state_transition (current_block_state e block_id) .DIRTY then
    let e1 := insert_block_metadata e ⟨block_id, wal_offset, timestamp, .DIRTY⟩
    let e2 := { e1 with dirty_blocks := bitmap_add e1.dirty_blocks block_id }
    let e3 := add_wal_index (add_time_index e2 timestamp block_id) wal_offset block_id
    (.success, { e3 with dirty_count := e3.dirty_count + 1, total_blocks := e3.total_blocks + 1 })
  else (.invalidStateTrans, e)

/-- bitmap_engine_mark_new: the same shape with target state NEW. -/
def bitmap_engine_mark_new (e : SBitmapEngine) (block_id wal_offset : Nat)
    (timestamp : Int) : MarkResult × SBitmapEngine :=
  if bitmap_engine_validate_state_transition (current_block_state e block_id) .NEW then
    let e1 := insert_block_metadata e ⟨block_id, wal_offset, timestamp, .NEW⟩
    let e2 := { e1 with new_blocks := bitmap_add e1.new_blocks block_id }
    let e3 := add_wal_index (add_time_index e2 timestamp block_id) wal_offset block_id
    (.success, { e3 with new_count := e3.new_count + 1, total_blocks := e3.total_blocks + 1 })
  else (.invalidStateTrans, e)

/-- bitmap_engine_mark_deleted: the same shape with target state DELETED. -/
def bitmap_engine_mark_deleted (e : SBitmapEngine) (block_id wal_offset : Nat)
    (timestamp : Int) : MarkResult × SBitmapEngine :=
  if bitmap_engine_validate_state_transition (current_block_state e block_id) .DELETED then
    let e1 := insert_block_metadata e ⟨block_id, wal_offset, timestamp, .DELETED⟩
    let e2 := { e1 with deleted_blocks := bitmap_add e1.deleted_blocks block_id }
    let e3 := add_wal_index (add_time_index e2 timestamp block_id) wal_offset block_id
    (.success, { e3 with deleted_count := e3.deleted_count + 1, total_blocks := e3.total_blocks + 1 })
  else (.invalidStateTrans, e)

/-- bitmap_engine_clear_block: ERR_BLOCK_NOT_FOUND when no metadata exists,
otherwise validate the transition to CLEAN; on success remove the id from
all three bitmaps, erase the metadata, and recompute the three counters from
the bitmap cardinalities and total_blocks from metadata_count. -/
def bitmap_engine_clear_block (e : SBitmapEngine) (block_id : Nat) :
    MarkResult × SBitmapEngine :=
  match find_block_metadata e block_id with
  | none => (.blockNotFound, e)
  | some md =>
    if bitmap_engine_validate_state_transition md.state .CLEAN then
      let e1 := { e with
        dirty_blocks := bitmap_remove e.dirty_blocks block_id
        new_blocks := bitmap_remove e.new_blocks block_id
        deleted_blocks := bitmap_remove e.deleted_blocks block_id }
      let e2 := remove_block_metadata e1 block_id
      (.success, { e2 with
        dirty_count := bitmap_cardinality e2.dirty_blocks
        new_count := bitmap_cardinality e2.new_blocks
        deleted_count := bitmap_cardinality e2.deleted_blocks
        total_blocks := e2.metadata_count })
    else (.invalidStateTrans, e)

/-- bitmap_engine_get_dirty_blocks_by_time: zero when max_count is zero,
otherwise the range union over the time index intersected with the dirty
bitmap, emitted through tdengine_roaring_to_array. -/
def bitmap_engine_get_dirty_blocks_by_time (e : SBitmapEngine)
    (start_time end_time : Int) (max_count : Nat) : List Nat × Nat :=
  if max_count = 0 then ([], 0)
  else tdengine_roaring_to_array
    (skiplist_range_union_dirty e.dirty_blocks e.time_index start_time end_time) max_count

/-- bitmap_engine_get_dirty_blocks_by_wal: the symmetric query over the WAL
index. -/
def bitmap_engine_get_dirty_blocks_by_wal (e : SBitmapEngine)
    (start_offset end_offset : Nat) (max_count : Nat) : List Nat × Nat :=
  if max_count = 0 then ([], 0)
  else tdengine_roaring_to_array
    (skiplist_range_union_dirty e.dirty_blocks e.wal_index
      (start_offset : Int) (end_offset : Int)) max_count

/-- bitmap_engine_get_stats: total, dirty, new and deleted counters as
stored. -/
def bitmap_engine_get_stats (e : SBitmapEngine) : Nat × Nat × Nat × Nat :=
  (e.total_blocks, e.dirty_count, e.new_count, e.deleted_count)

/-- One mark or clear request against the engine. -/
inductive EngineOp where
  | markDirty (block_id wal_offset : Nat) (timestamp : Int)
  | markNew (block_id wal_offset : Nat) (timestamp : Int)
  | markDeleted (block_id wal_offset : Nat) (timestamp : Int)
  | clearBlock (block_id : Nat)

/-- Apply one request, keeping the resulting engine whether the call
succeeded or failed. -/
def apply_engine_op (e : SBitmapEngine) (op : EngineOp) : SBitmapEngine :=
  match op with
  | .markDirty block_id wal_offset timestamp =>
    (bitmap_engine_mark_dirty e block_id wal_offset timestamp).2
  | .markNew block_id wal_offset timestamp =>
    (bitmap_engine_mark_new e block_id wal_offset timestamp).2
  | .markDeleted block_id wal_offset timestamp =>
    (bitmap_engine_mark_deleted e block_id wal_offset timestamp).2
  | .clearBlock block_id => (bitmap_engine_clear_block e block_id).2

/-- Run a sequence of requests from the freshly initialized engine. -/
def run_engine_ops (ops : List EngineOp) : SBitmapEngine :=
  ops.foldl apply_engine_op bitmap_engine_init

/-- The engine invariant maintained by every mark and clear call: the three
counters equal the bitmap cardinalities, every id in the dirty bitmap has
metadata in state DIRTY or DELETED, every id in the new bitmap has metadata
(any non-CLEAN state), and every id in the deleted bitmap has metadata in
state DELETED. -/
def EngineInv (e : SBitmapEngine) : Prop :=
  e.dirty_count = bitmap_cardinality e.dirty_blocks ∧
  e.new_count = bitmap_cardinality e.new_blocks ∧
  e.deleted_count = bitmap_cardinality e.deleted_blocks ∧
  (∀ block_id, block_id ∈ e.dirty_blocks →
    current_block_state e block_id = .DIRTY ∨ current_block_state e block_id = .DELETED) ∧
  (∀ block_id, block_id ∈ e.new_blocks → ¬ current_block_state e block_id = .CLEAN) ∧
  (∀ block_id, block_id ∈ e.deleted_blocks → current_block_state e block_id = .DELETED)

/-- Event kinds of event_interceptor.h, in enum order. -/
inductive EEventType where
  | EVENT_BLOCK_CREATE
  | EVENT_BLOCK_UPDATE
  | EVENT_BLOCK_FLUSH
  | EVENT_BLOCK_DELETE
deriving DecidableEq

/-- SBlockEvent (the user_data pointer is dropped; the workers always pass it
through untouched). -/
structure SBlockEvent where
  event_type : EEventType
  block_id : Nat
  wal_offset : Nat
  timestamp : Int
deriving DecidableEq

/-- One iteration of callback_thread_func on a successfully dequeued event:
the worker invokes the configured user callback when one is set, increments
events_processed, and frees the event.  The worker itself performs no
bitmap-engine call; the engine can change only through whatever the user
callback does.  The callback is modelled as an arbitrary engine transformer,
which over-approximates every effect a C callback could have on the
engine. -/
def callback_thread_process_event
    (callback : Option (SBlockEvent → SBitmapEngine → SBitmapEngine))
    (engine : SBitmapEngine) (events_processed : Nat) (ev : SBlockEvent) :
    SBitmapEngine × Nat :=
  match callback with
  | some f => (f ev engine, events_processed + 1)
  | none => (engine, events_processed + 1)

/-- The event-to-engine mapping the specification prescribes for the worker
loop: CREATE to mark_new, UPDATE to mark_dirty, FLUSH to clear_block,
DELETE to mark_deleted. -/
def spec_worker_apply_event (engine : SBitmapEngine) (ev : SBlockEvent) : SBitmapEngine :=
  match ev.event_type with
  | .EVENT_BLOCK_CREATE =>
    (bitmap_engine_mark_new engine ev.block_id ev.wal_offset ev.timestamp).2
  | .EVENT_BLOCK_UPDATE =>
    (bitmap_engine_mark_dirty engine ev.block_id ev.wal_offset ev.timestamp).2
  | .EVENT_BLOCK_FLUSH => (bitmap_engine_clear_block engine ev.block_id).2
  | .EVENT_BLOCK_DELETE =>
    (bitmap_engine_mark_deleted engine ev.block_id ev.wal_offset ev.timestamp).2

/-- The lifecycle-relevant part of SEventInterceptor: the stop_threads flag
and whether the worker threads are alive (workers_running abstracts the
pthread_create / pthread_join bookkeeping). -/
structure SEventInterceptorLifecycle where
  stop_threads : Bool
  workers_running : Bool
deriving DecidableEq

/-- event_interceptor_init sets stop_threads to false; no workers run yet. -/
def event_interceptor_lifecycle_init : SEventInterceptorLifecycle :=
  { stop_threads := false, workers_running := false }

/-- event_interceptor_start: when stop_threads is already true the call
returns 0 without touching anything (the C comment claims the interceptor is
already started); otherwise it sets stop_threads to false and spawns the
worker threads, returning 0. -/
def event_interceptor_start (s : SEventInterceptorLifecycle) :
    SEventInterceptorLifecycle × Int :=
  if s.stop_threads then (s, 0)
  else ({ stop_threads := false, workers_running := true }, 0)

/-- event_interceptor_stop: when stop_threads is false the call returns 0
immediately without setting the flag or joining anything (the C comment
claims the interceptor is already stopped); only when stop_threads is
already true does it set the flag and join the workers. -/
def event_interceptor_stop (s : SEventInterceptorLifecycle) :
    SEventInterceptorLifecycle × Int :=
  if s.stop_threads = false then (s, 0)
  else ({ stop_threads := true, workers_running := false }, 0)

/-- Error codes of backup_coordinator.h. -/
def BACKUP_SUCCESS : Int := 0

def BACKUP_ERROR_INVALID_PARAM : Int := -1

def BACKUP_ERROR_FILE_IO : Int := -5

def BACKUP_ERROR_NETWORK : Int := -6

def BACKUP_ERROR_TIMEOUT : Int := -7

def BACKUP_ERROR_DATA_CORRUPTION : Int := -8

def BACKUP_ERROR_CONNECTION_LOST : Int := -11

def BACKUP_ERROR_RETRY_EXHAUSTED : Int := -12

/-- is_retryable_error: exactly Network, Timeout, ConnectionLost and
FileIO. -/
def is_retryable_error (code : Int) : Bool :=
  code == BACKUP_ERROR_NETWORK || code == BACKUP_ERROR_TIMEOUT ||
  code == BACKUP_ERROR_CONNECTION_LOST || code == BACKUP_ERROR_FILE_IO

/-- The while loop of backup_execute_with_retry.  The C loop runs while
current_retry is at most max_retry and current_retry grows by one per
iteration, so giving the recursion max_retry + 1 - current_retry units of
fuel reproduces the loop exactly; the fuel-exhausted branch is the
return of BACKUP_ERROR_RETRY_EXHAUSTED that follows the loop.  The
operation is modelled as a function from the attempt counter to the
result of that attempt, covering every sequence of per-attempt results;
the returned pair is (result, final current_retry). -/
def backup_retry_loop (operation : Nat → Int) (max_retry current_retry fuel : Nat) :
    Int × Nat :=
  match fuel with
  | 0 => (BACKUP_ERROR_RETRY_EXHAUSTED, current_retry)
  | f + 1 =>
    let result := operation current_retry
    if result = BACKUP_SUCCESS then (BACKUP_SUCCESS, current_retry)
    else if is_retryable_error result = false ∨ max_retry ≤ current_retry then
      (result, current_retry)
    else backup_retry_loop operation max_retry (current_retry + 1) f

/-- backup_execute_with_retry: start at current_retry = 0 with enough fuel
for the whole while loop. -/
def backup_execute_with_retry (operation : Nat → Int) (max_retry : Nat) : Int × Nat :=
  backup_retry_loop operation max_retry 0 (max_retry + 1)

/-- Cursor types of backup_coordinator.h. -/
inductive ECursorType where
  | CURSOR_TYPE_TIME
  | CURSOR_TYPE_WAL
  | CURSOR_TYPE_HYBRID
deriving DecidableEq

/-- SIncrementalCursor. -/
structure SIncrementalCursor where
  type : ECursorType
  start_time : Int
  end_time : Int
  start_wal : Nat
  end_wal : Nat
  current_block : Nat
  block_count : Nat
  has_more : Bool
deriving DecidableEq

/-- SIncrementalBlock as filled by get_next_batch (data stays NULL and
data_size 0, so only the metadata fields are modelled). -/
structure SIncrementalBlock where
  block_id : Nat
  wal_offset : Nat
  timestamp : Int
  state : EBlockState
  data_size : Nat
deriving DecidableEq

/-- backup_coordinator_create_cursor: store the ranges, probe the WAL range
with a one-slot buffer, and set block_count to the constant 1000 whenever
that probe returns anything; has_more always starts true. -/
def backup_coordinator_create_cursor (engine : SBitmapEngine)
    (cursor_type : ECursorType) (start_time end_time : Int)
    (start_wal end_wal : Nat) : SIncrementalCursor :=
  let count := (bitmap_engine_get_dirty_blocks_by_wal engine start_wal end_wal 1).2
  { type := cursor_type
    start_time := start_time
    end_time := end_time
    start_wal := start_wal
    end_wal := end_wal
    current_block := 0
    block_count := if 0 < count then 1000 else 0
    has_more := true }

/-- The per-id body of the fill loop of get_next_batch: a block record built
from the metadata when it exists; the output slot is left untouched (none)
when the metadata lookup fails. -/
def fill_incremental_block (engine : SBitmapEngine) (block_id : Nat) :
    Option SIncrementalBlock :=
  match find_block_metadata engine block_id with
  | some md => some ⟨block_id, md.wal_offset, md.timestamp, md.state, 0⟩
  | none => none

/-- backup_coordinator_get_next_batch: zero on a zero max_count or an
exhausted cursor; otherwise a single get_dirty_blocks_by_wal over the full
[start_wal, end_wal] range of the cursor, whatever the cursor type, filling
one record per returned id; afterwards current_block grows by the count and
has_more drops to false when current_block reaches block_count or the batch
came back short. -/
def backup_coordinator_get_next_batch (engine : SBitmapEngine)
    (cursor : SIncrementalCursor) (max_count : Nat) :
    List (Option SIncrementalBlock) × Nat × SIncrementalCursor :=
  if max_count = 0 then ([], 0, cursor)
  else if cursor.has_more = false then ([], 0, cursor)
  else
    let q := bitmap_engine_get_dirty_blocks_by_wal engine cursor.start_wal cursor.end_wal
      max_count
    let blocks := (q.1.take q.2).map (fill_incremental_block engine)
    let nextCursor : SIncrementalCursor :=
      { cursor with
        current_block := cursor.current_block + q.2
        has_more :=
          if cursor.block_count ≤ cursor.current_block + q.2 ∨ q.2 < max_count then false
          else cursor.has_more }
    (blocks, q.2, nextCursor)

/-- backup_coordinator_estimate_size: probe the WAL range with a one-slot
buffer, multiply the probe count by the constant 1000 to get the block
estimate, and multiply that by the hardcoded 1 MiB per block to get the
size estimate. -/
def backup_coordinator_estimate_size (engine : SBitmapEngine)
    (start_wal end_wal : Nat) : Nat × Nat :=
  let count := (bitmap_engine_get_dirty_blocks_by_wal engine start_wal end_wal 1).2
  let estimated_blocks := count * 1000
  (estimated_blocks, estimated_blocks * 1024 * 1024)

/-- Engine holding one dirty block 5 at WAL offset 10, timestamp 100. -/
def engine_one_dirty : SBitmapEngine :=
  (bitmap_engine_mark_dirty bitmap_engine_init 5 10 100).2

/-- Engine holding dirty blocks 1 and 2 at WAL offsets 10 and 20. -/
def engine_two_dirty : SBitmapEngine :=
  (bitmap_engine_mark_dirty (bitmap_engine_mark_dirty bitmap_engine_init 1 10 100).2 2 20 200).2

/-- Engine holding dirty blocks 1, 2 and 3 at WAL offsets 10, 20 and 30. -/
def engine_three_dirty : SBitmapEngine :=
  (bitmap_engine_mark_dirty engine_two_dirty 3 30 300).2

/-- A WAL cursor over [0, 100] on engine_three_dirty, as create_cursor
builds it. -/
def cursor_wal_three : SIncrementalCursor :=
  backup_coordinator_create_cursor engine_three_dirty .CURSOR_TYPE_WAL 0 0 0 100

/-- A TIME cursor over timestamps [100, 100] with the empty WAL range
[0, 0] on engine_one_dirty. -/
def cursor_time_one : SIncrementalCursor :=
  backup_coordinator_create_cursor engine_one_dirty .CURSOR_TYPE_TIME 100 100 0 0

theorem mem_bitmap_add {l : List Nat} {x v : Nat} :
    v ∈ bitmap_add l x ↔ v = x ∨ v ∈ l := by
  induction l with
  | nil => simp [bitmap_add]
  | cons y ys ih =>
    by_cases h1 : x < y
    · simp [bitmap_add, h1]
    · by_cases h2 : x = y
      · subst h2
        simp [bitmap_add, h1]
        try tauto
      · simp [bitmap_add, h1, h2, ih]
        tauto

theorem length_bitmap_add_of_not_mem {l : List Nat} {x : Nat} (h : x ∉ l) :
    (bitmap_add l x).length = l.length + 1 := by
  induction l with
  | nil => rfl
  | cons y ys ih =>
    have hxy : ¬ x = y := fun hh => h (by simp [hh])
    have hys : x ∉ ys := fun hh => h (List.mem_cons_of_mem _ hh)
    by_cases h1 : x < y
    · simp [bitmap_add, h1]
    · simp [bitmap_add, h1, hxy, ih hys]

theorem mem_bitmap_remove {l : List Nat} {x v : Nat} :
    v ∈ bitmap_remove l x ↔ v ∈ l ∧ ¬ v = x := by
  simp [bitmap_remove]

theorem validate_to_DIRTY_cases {s : EBlockState}
    (h : bitmap_engine_validate_state_transition s .DIRTY = true) :
    s = .CLEAN ∨ s = .NEW := by
  revert h
  cases s <;> simp [bitmap_engine_validate_state_transition, STATE_TRANSITION_MATRIX]

theorem validate_to_NEW_cases {s : EBlockState}
    (h : bitmap_engine_validate_state_transition s .NEW = true) :
    s = .CLEAN := by
  revert h
  cases s <;> simp [bitmap_engine_validate_state_transition, STATE_TRANSITION_MATRIX]

theorem validate_to_DELETED_cases {s : EBlockState}
    (h : bitmap_engine_validate_state_transition s .DELETED = true) :
    ¬ s = .DELETED := by
  revert h
  cases s <;> simp [bitmap_engine_validate_state_transition, STATE_TRANSITION_MATRIX]

theorem validate_to_CLEAN_cases {s : EBlockState}
    (h : bitmap_engine_validate_state_transition s .CLEAN = true) :
    s = .DIRTY := by
  revert h
  cases s <;> simp [bitmap_engine_validate_state_transition, STATE_TRANSITION_MATRIX]

theorem mark_dirty_success_state (e : SBitmapEngine) (block_id wal_offset : Nat)
    (timestamp : Int)
    (hv : bitmap_engine_validate_state_transition (current_block_state e block_id)
      .DIRTY = true) :
    (bitmap_engine_mark_dirty e block_id wal_offset timestamp).2 =
      { e with
        dirty_blocks := bitmap_add e.dirty_blocks block_id
        metadata_map := fun k =>
          if k = block_id then some ⟨block_id, wal_offset, timestamp, .DIRTY⟩
          else e.metadata_map k
        metadata_count :=
          if (e.metadata_map block_id).isSome then e.metadata_count
          else e.metadata_count + 1
        time_index := skiplist_add e.time_index timestamp block_id
        wal_index := skiplist_add e.wal_index (wal_offset : Int) block_id
        dirty_count := e.dirty_count + 1
        total_blocks := e.total_blocks + 1 } := by
  simp only [bitmap_engine_mark_dirty, hv, if_true, insert_block_metadata,
    add_time_index, add_wal_index]

theorem mark_new_success_state (e : SBitmapEngine) (block_id wal_offset : Nat)
    (timestamp : Int)
    (hv : bitmap_engine_validate_state_transition (current_block_state e block_id)
      .NEW = true) :
    (bitmap_engine_mark_new e block_id wal_offset timestamp).2 =
      { e with
        new_blocks := bitmap_add e.new_blocks block_id
        metadata_map := fun k =>
          if k = block_id then some ⟨block_id, wal_offset, timestamp, .NEW⟩
          else e.metadata_map k
        metadata_count :=
          if (e.metadata_map block_id).isSome then e.metadata_count
          else e.metadata_count + 1
        time_index := skiplist_add e.time_index timestamp block_id
        wal_index := skiplist_add e.wal_index (wal_offset : Int) block_id
        new_count := e.new_count + 1
        total_blocks := e.total_blocks + 1 } := by
  simp only [bitmap_engine_mark_new, hv, if_true, insert_block_metadata,
    add_time_index, add_wal_index]

theorem mark_deleted_success_state (e : SBitmapEngine) (block_id wal_offset : Nat)
    (timestamp : Int)
    (hv : bitmap_engine_validate_state_transition (current_block_state e block_id)
      .DELETED = true) :
    (bitmap_engine_mark_deleted e block_id wal_offset timestamp).2 =
      { e with
        deleted_blocks := bitmap_add e.deleted_blocks block_id
        metadata_map := fun k =>
          if k = block_id then some ⟨block_id, wal_offset, timestamp, .DELETED⟩
          else e.metadata_map k
        metadata_count :=
          if (e.metadata_map block_id).isSome then e.metadata_count
          else e.metadata_count + 1
        time_index := skiplist_add e.time_index timestamp block_id
        wal_index := skiplist_add e.wal_index (wal_offset : Int) block_id
        deleted_count := e.deleted_count + 1
        total_blocks := e.total_blocks + 1 } := by
  simp only [bitmap_engine_mark_deleted, hv, if_true, insert_block_metadata,
    add_time_index, add_wal_index]

theorem EngineInv_init : EngineInv bitmap_engine_init := by
  refine ⟨rfl, rfl, rfl, ?_, ?_, ?_⟩ <;> intro j hj <;> simp [bitmap_engine_init] at hj

theorem EngineInv_mark_dirty (e : SBitmapEngine) (hinv : EngineInv e)
    (block_id wal_offset : Nat) (timestamp : Int) :
    EngineInv (bitmap_engine_mark_dirty e block_id wal_offset timestamp).2 := by
  obtain ⟨hd, hn, hdel, hmd, hmn, hmdel⟩ := hinv
  cases hv : bitmap_engine_validate_state_transition (current_block_state e block_id)
    .DIRTY with
  | false =>
    simp only [bitmap_engine_mark_dirty, hv, Bool.false_eq_true, if_false]
    exact ⟨hd, hn, hdel, hmd, hmn, hmdel⟩
  | true =>
    have hcur := validate_to_DIRTY_cases hv
    have hnotmem : block_id ∉ e.dirty_blocks := by
      intro hmem
      rcases hmd block_id hmem with h1 | h1 <;> rcases hcur with h2 | h2 <;>
        rw [h1] at h2 <;> cases h2
    rw [mark_dirty_success_state e block_id wal_offset timestamp hv]
    refine ⟨?_, hn, hdel, ?_, ?_, ?_⟩
    · simpa [bitmap_cardinality, length_bitmap_add_of_not_mem hnotmem] using hd
    · intro j hj
      rcases mem_bitmap_add.1 hj with rfl | hj'
      · left
        simp [current_block_state, find_block_metadata]
      · by_cases hje : j = block_id
        · subst hje
          left
          simp [current_block_state, find_block_metadata]
        · have := hmd j hj'
          simpa [current_block_state, find_block_metadata, hje] using this
    · intro j hj
      by_cases hje : j = block_id
      · subst hje
        simp [current_block_state, find_block_metadata]
      · have := hmn j hj
        simpa [current_block_state, find_block_metadata, hje] using this
    · intro j hj
      by_cases hje : j = block_id
      · have h1 := hmdel j hj
        rw [hje] at h1
        rcases hcur with h2 | h2 <;> rw [h1] at h2 <;> exact absurd h2 (by decide)
      · have := hmdel j hj
        simpa [current_block_state, find_block_metadata, hje] using this

theorem EngineInv_mark_new (e : SBitmapEngine) (hinv : EngineInv e)
    (block_id wal_offset : Nat) (timestamp : Int) :
    EngineInv (bitmap_engine_mark_new e block_id wal_offset timestamp).2 := by
  obtain ⟨hd, hn, hdel, hmd, hmn, hmdel⟩ := hinv
  cases hv : bitmap_engine_validate_state_transition (current_block_state e block_id)
    .NEW with
  | false =>
    simp only [bitmap_engine_mark_new, hv, Bool.false_eq_true, if_false]
    exact ⟨hd, hn, hdel, hmd, hmn, hmdel⟩
  | true =>
    have hcur := validate_to_NEW_cases hv
    have hnotmem : block_id ∉ e.new_blocks := by
      intro hmem
      exact hmn block_id hmem hcur
    rw [mark_new_success_state e block_id wal_offset timestamp hv]
    refine ⟨hd, ?_, hdel, ?_, ?_, ?_⟩
    · simpa [bitmap_cardinality, length_bitmap_add_of_not_mem hnotmem] using hn
    · intro j hj
      by_cases hje : j = block_id
      · have h1 := hmd j hj
        rw [hje] at h1
        rcases h1 with h1 | h1 <;> rw [h1] at hcur <;> exact absurd hcur (by decide)
      · have := hmd j hj
        simpa [current_block_state, find_block_metadata, hje] using this
    · intro j hj
      by_cases hje : j = block_id
      · simp [current_block_state, find_block_metadata, hje]
      · rcases mem_bitmap_add.1 hj with h1 | h1
        · exact absurd h1 hje
        · have := hmn j h1
          simpa [current_block_state, find_block_metadata, hje] using this
    · intro j hj
      by_cases hje : j = block_id
      · have h1 := hmdel j hj
        rw [hje] at h1
        rw [h1] at hcur
        exact absurd hcur (by decide)
      · have := hmdel j hj
        simpa [current_block_state, find_block_metadata, hje] using this

theorem EngineInv_mark_deleted (e : SBitmapEngine) (hinv : EngineInv e)
    (block_id wal_offset : Nat) (timestamp : Int) :
    EngineInv (bitmap_engine_mark_deleted e block_id wal_offset timestamp).2 := by
  obtain ⟨hd, hn, hdel, hmd, hmn, hmdel⟩ := hinv
  cases hv : bitmap_engine_validate_state_transition (current_block_state e block_id)
    .DELETED with
  | false =>
    simp only [bitmap_engine_mark_deleted, hv, Bool.false_eq_true, if_false]
    exact ⟨hd, hn, hdel, hmd, hmn, hmdel⟩
  | true =>
    have hcur := validate_to_DELETED_cases hv
    have hnotmem : block_id ∉ e.deleted_blocks := by
      intro hmem
      exact hcur (hmdel block_id hmem)
    rw [mark_deleted_success_state e block_id wal_offset timestamp hv]
    refine ⟨hd, hn, ?_, ?_, ?_, ?_⟩
    · simpa [bitmap_cardinality, length_bitmap_add_of_not_mem hnotmem] using hdel
    · intro j hj
      by_cases hje : j = block_id
      · right
        simp [current_block_state, find_block_metadata, hje]
      · have := hmd j hj
        simpa [current_block_state, find_block_metadata, hje] using this
    · intro j hj
      by_cases hje : j = block_id
      · simp [current_block_state, find_block_metadata, hje]
      · have := hmn j hj
        simpa [current_block_state, find_block_metadata, hje] using this
    · intro j hj
      by_cases hje : j = block_id
      · simp [current_block_state, find_block_metadata, hje]
      · rcases mem_bitmap_add.1 hj with h1 | h1
        · exact absurd h1 hje
        · have := hmdel j h1
          simpa [current_block_state, find_block_metadata, hje] using this

theorem clear_block_success_state (e : SBitmapEngine) (block_id : Nat)
    (md : SBlockMetadata) (hfind : find_block_metadata e block_id = some md)
    (hv : bitmap_engine_validate_state_transition md.state .CLEAN = true) :
    (bitmap_engine_clear_block e block_id).2 =
      { e with
        dirty_blocks := bitmap_remove e.dirty_blocks block_id
        new_blocks := bitmap_remove e.new_blocks block_id
        deleted_blocks := bitmap_remove e.deleted_blocks block_id
        metadata_map := fun k => if k = block_id then none else e.metadata_map k
        metadata_count := e.metadata_count - 1
        dirty_count := bitmap_cardinality (bitmap_remove e.dirty_blocks block_id)
        new_count := bitmap_cardinality (bitmap_remove e.new_blocks block_id)
        deleted_count := bitmap_cardinality (bitmap_remove e.deleted_blocks block_id)
        total_blocks := e.metadata_count - 1 } := by
  have hfind' : e.metadata_map block_id = some md := hfind
  simp only [bitmap_engine_clear_block, hfind, hv, if_true, remove_block_metadata,
    hfind', Option.isSome_some]

theorem EngineInv_clear_block (e : SBitmapEngine) (hinv : EngineInv e)
    (block_id : Nat) :
    EngineInv (bitmap_engine_clear_block e block_id).2 := by
  obtain ⟨hd, hn, hdel, hmd, hmn, hmdel⟩ := hinv
  cases hfind : find_block_metadata e block_id with
  | none =>
    simp only [bitmap_engine_clear_block, hfind]
    exact ⟨hd, hn, hdel, hmd, hmn, hmdel⟩
  | some md =>
    cases hv : bitmap_engine_validate_state_transition md.state .CLEAN with
    | false =>
      simp only [bitmap_engine_clear_block, hfind, hv, Bool.false_eq_true, if_false]
      exact ⟨hd, hn, hdel, hmd, hmn, hmdel⟩
    | true =>
      rw [clear_block_success_state e block_id md hfind hv]
      refine ⟨rfl, rfl, rfl, ?_, ?_, ?_⟩
      · intro j hj
        obtain ⟨hj', hje⟩ := mem_bitmap_remove.1 hj
        have := hmd j hj'
        simpa [current_block_state, find_block_metadata, hje] using this
      · intro j hj
        obtain ⟨hj', hje⟩ := mem_bitmap_remove.1 hj
        have := hmn j hj'
        simpa [current_block_state, find_block_metadata, hje] using this
      · intro j hj
        obtain ⟨hj', hje⟩ := mem_bitmap_remove.1 hj
        have := hmdel j hj'
        simpa [current_block_state, find_block_metadata, hje] using this

theorem EngineInv_apply_op (e : SBitmapEngine) (hinv : EngineInv e) (op : EngineOp) :
    EngineInv (apply_engine_op e op) := by
  cases op with
  | markDirty block_id wal_offset timestamp =>
    exact EngineInv_mark_dirty e hinv block_id wal_offset timestamp
  | markNew block_id wal_offset timestamp =>
    exact EngineInv_mark_new e hinv block_id wal_offset timestamp
  | markDeleted block_id wal_offset timestamp =>
    exact EngineInv_mark_deleted e hinv block_id wal_offset timestamp
  | clearBlock block_id => exact EngineInv_clear_block e hinv block_id

theorem EngineInv_foldl (ops : List EngineOp) :
    ∀ e : SBitmapEngine, EngineInv e → EngineInv (ops.foldl apply_engine_op e) := by
  induction ops with
  | nil => intro e he; exact he
  | cons op rest ih => intro e he; exact ih _ (EngineInv_apply_op e he op)

theorem EngineInv_run (ops : List EngineOp) : EngineInv (run_engine_ops ops) :=
  EngineInv_foldl ops bitmap_engine_init EngineInv_init

theorem to_array_count (l : List Nat) (max_count : Nat) :
    (tdengine_roaring_to_array l max_count).2 = min (bitmap_cardinality l) max_count := by
  simp only [tdengine_roaring_to_array]
  split <;> rfl

/-- C7: in every engine state reachable by any sequence of successful and
failed mark and clear requests, the dirty, new and deleted counters returned
by get_stats equal the cardinalities of the dirty, new and deleted bitmaps
respectively. -/
theorem claim_C7_stats_match_cardinalities (ops : List EngineOp) :
    (bitmap_engine_get_stats (run_engine_ops ops)).2.1 =
      bitmap_cardinality (run_engine_ops ops).dirty_blocks ∧
    (bitmap_engine_get_stats (run_engine_ops ops)).2.2.1 =
      bitmap_cardinality (run_engine_ops ops).new_blocks ∧
    (bitmap_engine_get_stats (run_engine_ops ops)).2.2.2 =
      bitmap_cardinality (run_engine_ops ops).deleted_blocks := by
  obtain ⟨hd, hn, hdel, -, -, -⟩ := EngineInv_run ops
  exact ⟨hd, hn, hdel⟩

/-- C1 (amended): a marking request succeeds exactly when the transition
matrix (written identically in the code and in the spec) allows the edge
from the current state (CLEAN when the block has no metadata) to the target;
when the matrix forbids the edge the engine is unchanged and the three mark
functions return InvalidStateTransition, while clear_block returns
InvalidStateTransition when the block has metadata and BlockNotFound when it
has none. -/
theorem claim_C1_transitions_follow_matrix (e : SBitmapEngine)
    (block_id wal_offset : Nat) (timestamp : Int) :
    (∀ a b, spec_transition_matrix a b = STATE_TRANSITION_MATRIX a b) ∧
    ((bitmap_engine_mark_dirty e block_id wal_offset timestamp).1 = .success ↔
      STATE_TRANSITION_MATRIX (current_block_state e block_id) .DIRTY = true) ∧
    (STATE_TRANSITION_MATRIX (current_block_state e block_id) .DIRTY = false →
      bitmap_engine_mark_dirty e block_id wal_offset timestamp =
        (.invalidStateTrans, e)) ∧
    ((bitmap_engine_mark_new e block_id wal_offset timestamp).1 = .success ↔
      STATE_TRANSITION_MATRIX (current_block_state e block_id) .NEW = true) ∧
    (STATE_TRANSITION_MATRIX (current_block_state e block_id) .NEW = false →
      bitmap_engine_mark_new e block_id wal_offset timestamp =
        (.invalidStateTrans, e)) ∧
    ((bitmap_engine_mark_deleted e block_id wal_offset timestamp).1 = .success ↔
      STATE_TRANSITION_MATRIX (current_block_state e block_id) .DELETED = true) ∧
    (STATE_TRANSITION_MATRIX (current_block_state e block_id) .DELETED = false →
      bitmap_engine_mark_deleted e block_id wal_offset timestamp =
        (.invalidStateTrans, e)) ∧
    ((bitmap_engine_clear_block e block_id).1 = .success ↔
      STATE_TRANSITION_MATRIX (current_block_state e block_id) .CLEAN = true) ∧
    (STATE_TRANSITION_MATRIX (current_block_state e block_id) .CLEAN = false →
      bitmap_engine_clear_block e block_id =
        ((if (find_block_metadata e block_id).isSome then MarkResult.invalidStateTrans
          else MarkResult.blockNotFound), e)) := by
  refine ⟨fun a b => by cases a <;> cases b <;> rfl, ?_, ?_, ?_, ?_, ?_, ?_, ?_, ?_⟩
  · cases hv : STATE_TRANSITION_MATRIX (current_block_state e block_id) .DIRTY <;>
      simp [bitmap_engine_mark_dirty, bitmap_engine_validate_state_transition, hv]
  · intro hv
    simp [bitmap_engine_mark_dirty, bitmap_engine_validate_state_transition, hv]
  · cases hv : STATE_TRANSITION_MATRIX (current_block_state e block_id) .NEW <;>
      simp [bitmap_engine_mark_new, bitmap_engine_validate_state_transition, hv]
  · intro hv
    simp [bitmap_engine_mark_new, bitmap_engine_validate_state_transition, hv]
  · cases hv : STATE_TRANSITION_MATRIX (current_block_state e block_id) .DELETED <;>
      simp [bitmap_engine_mark_deleted, bitmap_engine_validate_state_transition, hv]
  · intro hv
    simp [bitmap_engine_mark_deleted, bitmap_engine_validate_state_transition, hv]
  · cases hfind : find_block_metadata e block_id with
    | none =>
      have hcs : current_block_state e block_id = .CLEAN := by
        simp [current_block_state, hfind]
      rw [hcs]
      simp [bitmap_engine_clear_block, hfind, STATE_TRANSITION_MATRIX]
    | some md =>
      have hcs : current_block_state e block_id = md.state := by
        simp [current_block_state, hfind]
      rw [hcs]
      cases hv : STATE_TRANSITION_MATRIX md.state .CLEAN <;>
        simp [bitmap_engine_clear_block, hfind,
          bitmap_engine_validate_state_transition, hv]
  · intro hmat
    cases hfind : find_block_metadata e block_id with
    | none => simp [bitmap_engine_clear_block, hfind]
    | some md =>
      have hcs : current_block_state e block_id = md.state := by
        simp [current_block_state, hfind]
      rw [hcs] at hmat
      simp [bitmap_engine_clear_block, hfind,
        bitmap_engine_validate_state_transition, hmat]

/-- C1 counterexample: the matrix forbids the CLEAN to CLEAN edge, yet
clear_block on a block without metadata (hence CLEAN) fails with
BlockNotFound, not with the InvalidStateTransition the claim requires of
every matrix-forbidden request. -/
theorem claim_C1_counterexample :
    STATE_TRANSITION_MATRIX (current_block_state bitmap_engine_init 0) .CLEAN = false ∧
    (bitmap_engine_clear_block bitmap_engine_init 0).1 = .blockNotFound ∧
    MarkResult.blockNotFound ≠ MarkResult.invalidStateTrans := by
  decide

/-- C1 witness: the amended theorem applied to an engine whose block 7 is
DELETED: marking it dirty is matrix-forbidden, returns
InvalidStateTransition and leaves the engine unchanged. -/
theorem claim_C1_witness :
    bitmap_engine_mark_dirty (bitmap_engine_mark_deleted bitmap_engine_init 7 1 2).2
        7 1 2 =
      (MarkResult.invalidStateTrans,
        (bitmap_engine_mark_deleted bitmap_engine_init 7 1 2).2) := by
  have h := claim_C1_transitions_follow_matrix
    (bitmap_engine_mark_deleted bitmap_engine_init 7 1 2).2 7 1 2
  exact h.2.2.1 (by decide)

/-- C2: the exactly-one-bitmap invariant fails on the code: after mark_new
then mark_dirty on block 1, the metadata state is DIRTY yet the id is
contained in both the new and the dirty bitmaps, because the mark functions
never remove the id from the other bitmaps. -/
theorem claim_C2_failing_run :
    current_block_state
        (bitmap_engine_mark_dirty
          (bitmap_engine_mark_new bitmap_engine_init 1 100 1000).2 1 200 2000).2 1 =
      .DIRTY ∧
    1 ∈ (bitmap_engine_mark_dirty
          (bitmap_engine_mark_new bitmap_engine_init 1 100 1000).2 1 200 2000).2.dirty_blocks ∧
    1 ∈ (bitmap_engine_mark_dirty
          (bitmap_engine_mark_new bitmap_engine_init 1 100 1000).2 1 200 2000).2.new_blocks := by
  decide

/-- C3: the worker loop does not apply dequeued events to the bitmap engine:
with no user callback configured the engine after the worker handles an
event is unchanged, whereas the CREATE to mark_new mapping the claim
describes would have added the block to the new bitmap. -/
theorem claim_C3_worker_skips_engine :
    (∀ (engine : SBitmapEngine) (events_processed : Nat) (ev : SBlockEvent),
      (callback_thread_process_event none engine events_processed ev).1 = engine) ∧
    (callback_thread_process_event none bitmap_engine_init 0
      ⟨.EVENT_BLOCK_CREATE, 1, 100, 1000⟩).1.new_blocks = [] ∧
    (spec_worker_apply_event bitmap_engine_init
      ⟨.EVENT_BLOCK_CREATE, 1, 100, 1000⟩).new_blocks = [1] :=
  ⟨fun _ _ _ => rfl, by decide, by decide⟩

/-- C4: retry exhaustion does not produce RetryExhausted: with max_retries 3
and an operation failing with Network on every attempt, execute_with_retry
performs 3 retries and returns the Network code itself (the
RETRY_EXHAUSTED return after the loop is unreachable); a non-retryable
error such as DataCorruption is still returned immediately with zero
retries. -/
theorem claim_C4_retry_exhaustion_result :
    backup_execute_with_retry (fun _ => BACKUP_ERROR_NETWORK) 3 =
      (BACKUP_ERROR_NETWORK, 3) ∧
    BACKUP_ERROR_NETWORK ≠ BACKUP_ERROR_RETRY_EXHAUSTED ∧
    backup_execute_with_retry (fun _ => BACKUP_ERROR_DATA_CORRUPTION) 3 =
      (BACKUP_ERROR_DATA_CORRUPTION, 0) := by
  decide

/-- C6: with three dirty blocks in the WAL range and max_count 2 the range
query returns count 2 but hands the caller the full three-element ascending
array: to_array bounds only the returned count, not the number of ids
written into the output buffer. -/
theorem claim_C6_to_array_writes_past_max :
    bitmap_engine_get_dirty_blocks_by_wal engine_three_dirty 0 100 2 = ([1, 2, 3], 2) ∧
    (bitmap_engine_get_dirty_blocks_by_wal engine_three_dirty 0 100 2).1.length = 3 ∧
    ¬ (bitmap_engine_get_dirty_blocks_by_wal engine_three_dirty 0 100 2).1.length ≤ 2 := by
  decide

/-- C9: stop on a started interceptor is a no-op: after init and start the
stop_threads flag is false, so event_interceptor_stop takes its
already-stopped branch, returning 0 immediately without setting the flag or
joining the workers, which keep running. -/
theorem claim_C9_stop_on_running_is_noop :
    (event_interceptor_start event_interceptor_lifecycle_init).1.workers_running = true ∧
    (event_interceptor_start event_interceptor_lifecycle_init).1.stop_threads = false ∧
    event_interceptor_stop (event_interceptor_start event_interceptor_lifecycle_init).1 =
      ((event_interceptor_start event_interceptor_lifecycle_init).1, 0) ∧
    (event_interceptor_stop
      (event_interceptor_start event_interceptor_lifecycle_init).1).1.workers_running =
      true := by
  decide

/-- C5 (amended): get_next_batch dispatches no query by cursor type: for
every cursor it issues the single WAL range query over
[start_wal, end_wal], so changing the type and the time bounds of a cursor
changes neither the produced blocks nor the count. -/
theorem claim_C5_batch_ignores_cursor_type (engine : SBitmapEngine)
    (cursor : SIncrementalCursor) (ty : ECursorType) (t0 t1 : Int) (max_count : Nat) :
    ((backup_coordinator_get_next_batch engine
        { cursor with type := ty, start_time := t0, end_time := t1 } max_count).1 =
      (backup_coordinator_get_next_batch engine cursor max_count).1) ∧
    ((backup_coordinator_get_next_batch engine
        { cursor with type := ty, start_time := t0, end_time := t1 } max_count).2.1 =
      (backup_coordinator_get_next_batch engine cursor max_count).2.1) ∧
    (¬ max_count = 0 → cursor.has_more = true →
      (backup_coordinator_get_next_batch engine cursor max_count).2.1 =
        (bitmap_engine_get_dirty_blocks_by_wal engine cursor.start_wal cursor.end_wal
          max_count).2 ∧
      (backup_coordinator_get_next_batch engine cursor max_count).1 =
        ((bitmap_engine_get_dirty_blocks_by_wal engine cursor.start_wal cursor.end_wal
            max_count).1.take
          (bitmap_engine_get_dirty_blocks_by_wal engine cursor.start_wal cursor.end_wal
            max_count).2).map (fill_incremental_block engine)) := by
  refine ⟨?_, ?_, ?_⟩
  · by_cases hmax : max_count = 0
    · simp [backup_coordinator_get_next_batch, hmax]
    · by_cases hm : cursor.has_more = false <;>
        simp [backup_coordinator_get_next_batch, hmax, hm]
  · by_cases hmax : max_count = 0
    · simp [backup_coordinator_get_next_batch, hmax]
    · by_cases hm : cursor.has_more = false <;>
        simp [backup_coordinator_get_next_batch, hmax, hm]
  · intro hmax hm
    constructor <;> simp [backup_coordinator_get_next_batch, hmax, hm]

/-- C5 counterexample: a TIME cursor over timestamps [100, 100] with an
empty WAL range [0, 0]: the time-range query holds block 5, yet
get_next_batch returns zero blocks, because it queries the WAL range
whatever the cursor type. -/
theorem claim_C5_counterexample :
    cursor_time_one.type = .CURSOR_TYPE_TIME ∧
    (bitmap_engine_get_dirty_blocks_by_time engine_one_dirty 100 100 10).2 = 1 ∧
    (backup_coordinator_get_next_batch engine_one_dirty cursor_time_one 10).2.1 = 0 := by
  decide

/-- C5 witness: the amended theorem applied to a concrete cursor: the
batch count equals the WAL range query count. -/
theorem claim_C5_witness :
    (backup_coordinator_get_next_batch engine_three_dirty cursor_wal_three 2).2.1 =
      (bitmap_engine_get_dirty_blocks_by_wal engine_three_dirty
        cursor_wal_three.start_wal cursor_wal_three.end_wal 2).2 := by
  have h := claim_C5_batch_ignores_cursor_type engine_three_dirty cursor_wal_three
    .CURSOR_TYPE_HYBRID 0 0 2
  exact (h.2.2 (by decide) (by decide)).1

/-- C8 (amended): estimate_size probes the range with a one-element buffer,
so estimated_blocks is 1000 exactly when at least one dirty block lies in
the WAL range and 0 otherwise, never the actual cardinality, and
estimated_size multiplies that by a hardcoded 1 MiB per block. -/
theorem claim_C8_estimate_uses_constants (engine : SBitmapEngine)
    (start_wal end_wal : Nat) :
    backup_coordinator_estimate_size engine start_wal end_wal =
      (min (bitmap_cardinality (skiplist_range_union_dirty engine.dirty_blocks
          engine.wal_index (start_wal : Int) (end_wal : Int))) 1 * 1000,
       min (bitmap_cardinality (skiplist_range_union_dirty engine.dirty_blocks
          engine.wal_index (start_wal : Int) (end_wal : Int))) 1 * 1000 * 1024 * 1024) := by
  simp [backup_coordinator_estimate_size, bitmap_engine_get_dirty_blocks_by_wal,
    to_array_count]

/-- C8 counterexample: two dirty blocks lie in the range, yet estimate_size
reports 1000 blocks and 1000 MiB, not the engine-supplied cardinality 2
times a configured average block size. -/
theorem claim_C8_counterexample :
    backup_coordinator_estimate_size engine_two_dirty 0 100 = (1000, 1048576000) ∧
    bitmap_cardinality (skiplist_range_union_dirty engine_two_dirty.dirty_blocks
      engine_two_dirty.wal_index 0 100) = 2 ∧
    (1000 : Nat) ≠ 2 := by
  decide

/-- C10: a cursor never advances through its range: create_cursor sets
block_count to the constant 1000 exactly when the probed WAL range is
non-empty (and has_more to true); a get_next_batch call on a cursor whose
has_more flag is still true issues the query over the full
[start_wal, end_wal] range, and when the call fills the whole batch while
current_block stays below block_count, the next call with the same
max_count re-issues the identical query and returns the same blocks with
the same count, so a batch sequence delivers the same block ids again. -/
theorem claim_C10_cursor_re_reads (engine : SBitmapEngine)
    (cursor : SIncrementalCursor) (max_count : Nat) (ty : ECursorType)
    (t0 t1 : Int) (w0 w1 : Nat)
    (hmax : ¬ max_count = 0) (hm : cursor.has_more = true)
    (hfull : (backup_coordinator_get_next_batch engine cursor max_count).2.1 = max_count)
    (hbelow : cursor.current_block + max_count < cursor.block_count) :
    ((backup_coordinator_create_cursor engine ty t0 t1 w0 w1).block_count =
      if bitmap_cardinality (skiplist_range_union_dirty engine.dirty_blocks
          engine.wal_index (w0 : Int) (w1 : Int)) = 0 then 0 else 1000) ∧
    ((backup_coordinator_create_cursor engine ty t0 t1 w0 w1).has_more = true) ∧
    ((backup_coordinator_get_next_batch engine cursor max_count).1 =
      ((bitmap_engine_get_dirty_blocks_by_wal engine cursor.start_wal cursor.end_wal
          max_count).1.take max_count).map (fill_incremental_block engine)) ∧
    ((backup_coordinator_get_next_batch engine
        (backup_coordinator_get_next_batch engine cursor max_count).2.2 max_count).1 =
      (backup_coordinator_get_next_batch engine cursor max_count).1) ∧
    ((backup_coordinator_get_next_batch engine
        (backup_coordinator_get_next_batch engine cursor max_count).2.2 max_count).2.1 =
      max_count) := by
  have hq : (bitmap_engine_get_dirty_blocks_by_wal engine cursor.start_wal
      cursor.end_wal max_count).2 = max_count := by
    simpa [backup_coordinator_get_next_batch, hmax, hm] using hfull
  have hcond : ¬ (cursor.block_count ≤ cursor.current_block + max_count ∨
      max_count < max_count) := by omega
  have hcur' : (backup_coordinator_get_next_batch engine cursor max_count).2.2 =
      { cursor with
        current_block := cursor.current_block + max_count
        has_more := true } := by
    simp only [backup_coordinator_get_next_batch, hmax, hm, hq, hcond]
    simp [hcond]
  refine ⟨?_, rfl, ?_, ?_, ?_⟩
  · have hcount : (bitmap_engine_get_dirty_blocks_by_wal engine w0 w1 1).2 =
        min (bitmap_cardinality (skiplist_range_union_dirty engine.dirty_blocks
          engine.wal_index (w0 : Int) (w1 : Int))) 1 := by
      simp [bitmap_engine_get_dirty_blocks_by_wal, to_array_count]
    simp only [backup_coordinator_create_cursor, hcount]
    by_cases hc : bitmap_cardinality (skiplist_range_union_dirty engine.dirty_blocks
        engine.wal_index (w0 : Int) (w1 : Int)) = 0
    · simp [hc]
    · have h1 : 0 < min (bitmap_cardinality (skiplist_range_union_dirty
          engine.dirty_blocks engine.wal_index (w0 : Int) (w1 : Int))) 1 := by
        omega
      simp [hc, h1]
  · simp [backup_coordinator_get_next_batch, hmax, hm, hq]
  · rw [hcur']
    simp [backup_coordinator_get_next_batch, hmax, hm, hq]
  · rw [hcur']
    simp [backup_coordinator_get_next_batch, hmax, hm, hq]

/-- C10 witness: the theorem applied to the WAL cursor over [0, 100] on the
three-dirty-block engine with max_count 2: the first batch fills
completely, and the second batch returns the same two blocks again. -/
theorem claim_C10_witness :
    (backup_coordinator_get_next_batch engine_three_dirty
        (backup_coordinator_get_next_batch engine_three_dirty cursor_wal_three 2).2.2
        2).1 =
      (backup_coordinator_get_next_batch engine_three_dirty cursor_wal_three 2).1 ∧
    (backup_coordinator_get_next_batch engine_three_dirty
        (backup_coordinator_get_next_batch engine_three_dirty cursor_wal_three 2).2.2
        2).2.1 = 2 := by
  have h := claim_C10_cursor_re_reads engine_three_dirty cursor_wal_three 2
    .CURSOR_TYPE_WAL 0 0 0 100 (by decide) (by decide) (by decide) (by decide)
  exact ⟨h.2.2.2.1, h.2.2.2.2⟩
